import Mathlib

/-!
Shallow embedding of the go-supabase-orm query builder (`query_builder.go`).

Go-specific behaviour is modelled explicitly:

* `interface\x7b\x7d` values passed to filters are modelled by `GoValue`, and
  `GoValue.format` reproduces the `fmt` package's default `%v` rendering
  (a slice prints as a bracketed, space-separated list).
* The `headers` field of `QueryBuilder` is `Option (List (String × String))`:
  `none` models the nil map that `NewQueryBuilder` leaves behind (writing to a
  nil map panics at runtime; ranging over it yields nothing).
* The `client` field is `Option Client`: `none` models the nil pointer left by
  `NewQueryBuilder` and by `Client.From` (which never assigns it).
* `url.Values` is modelled as an association list from keys to value lists,
  with `valuesSet` and `valuesAdd` mirroring `Values.Set` and `Values.Add`.
* The single network round trip of `execute` is parameterised by a `transport`
  function; `ExecOutcome` records whether a request was dispatched, which
  request, and what happens to the caller's destination value.

The `Client` struct declaration and its `GetBaseURL` and `RawRequest` methods
are not among the given sources (only their callers are); those two methods
are modelled from the spec where marked.
-/

namespace SupabaseOrm

/-- A Go `interface\x7b\x7d` value as passed to `Where`, `Filter`, `Not`. -/
inductive GoValue where
  | str (s : String)
  | int (n : Int)
  | bool (b : Bool)
  | intSlice (xs : List Int)
  | strSlice (xs : List String)
deriving DecidableEq, Repr

/-- The `fmt` package's default `%v` rendering of a `GoValue`: strings print
verbatim, integers in decimal, booleans as `true`/`false`, and slices as a
bracketed space-separated list (for example `[1 2 3]`). -/
def GoValue.format : GoValue → String
  | .str s => s
  | .int n => toString n
  | .bool b => if b then "true" else "false"
  | .intSlice xs => "[" ++ String.intercalate " " (xs.map toString) ++ "]"
  | .strSlice xs => "[" ++ String.intercalate " " xs ++ "]"

/-- The `Client` struct: its declaration is outside the given sources, but
`NewClient` in `query_builder.go` constructs it from exactly these two
fields. -/
structure Client where
  baseURL : String
  apiKey : String
deriving DecidableEq, Repr

/-- The `join` struct of `query_builder.go`. -/
structure Join where
  foreignTable : String
  localColumn : String
  operator : String
  foreignColumn : String
deriving DecidableEq, Repr

/-- The `QueryBuilder` struct. Field defaults are the Go zero values of the
respective field types (empty string, empty slice, `false`, nil map, nil
pointer). -/
structure QueryBuilder where
  table : String := ""
  selectQuery : String := ""
  filters : List String := []
  orFilters : List String := []
  andFilters : List String := []
  notFilters : List String := []
  orderQuery : String := ""
  limitQuery : String := ""
  offsetQuery : String := ""
  rangeQuery : String := ""
  countQuery : String := ""
  singleResult : Bool := false
  headers : Option (List (String × String)) := none
  joins : List Join := []
  rawQuery : String := ""
  method : String := ""
  client : Option Client := none
deriving DecidableEq, Repr

/-- `NewQueryBuilder` initialises only `table` and `filters`; every other
field keeps its Go zero value — in particular `headers` stays a nil map and
`client` stays a nil pointer. -/
def NewQueryBuilder (table : String) : QueryBuilder :=
  { table := table, filters := [] }

/-- `NewClient` stores the base URL and API key verbatim. -/
def NewClient (baseURL apiKey : String) : Client :=
  { baseURL := baseURL, apiKey := apiKey }

/-- `Client.From`: the body is `qb := NewQueryBuilder(table); return qb` — the
receiver is never stored into the builder, so the builder's `client` field
remains nil. -/
def Client.From (c : Client) (table : String) : QueryBuilder :=
  NewQueryBuilder table

/-- The body of an outgoing request: absent, the caller-supplied data value
(opaque to this model), or the `sqlRequest` struct whose JSON encoding is the
object with single field `query` holding the raw text. -/
inductive BodyVal where
  | empty
  | caller
  | sql (query : String)
deriving DecidableEq, Repr

/-- The observable content of a dispatched HTTP request: method, endpoint
URL, final header map, final query-parameter multimap, and body. -/
structure Request where
  method : String
  endpoint : String
  headers : List (String × String)
  params : List (String × List String)
  body : BodyVal
deriving DecidableEq, Repr

/-- A transport response: the status-error predicate and the raw body. -/
structure Response where
  isErr : Bool
  body : String
deriving DecidableEq, Repr

/-- The observable effect of a `Client.RPC` call: the requests dispatched,
whether the result destination was written, and the returned error. -/
structure RPCEffect where
  requests : List Request := []
  resultWritten : Bool := false
  ret : Option String := none
deriving DecidableEq, Repr

/-- `Client.RPC` as written in `query_builder.go`: the body is a comment and
`return nil`. No request is dispatched, the result destination is never
written, and the returned error is nil. -/
def Client.RPC (c : Client) (procedure : String)
    (params : List (String × GoValue)) : RPCEffect :=
  { requests := [], resultWritten := false, ret := none }

/-- Overwrite-or-append on a header map modelled as an association list
(mirrors a Go map write / resty `SetHeader`). -/
def setAssoc (m : List (String × String)) (key value : String) :
    List (String × String) :=
  if m.any (fun p => p.1 == key) then
    m.map (fun p => if p.1 == key then (key, value) else p)
  else m ++ [(key, value)]

/-- `url.Values.Set`: replace all values of `key` by the single `value`. -/
def valuesSet (vs : List (String × List String)) (key value : String) :
    List (String × List String) :=
  if vs.any (fun p => p.1 == key) then
    vs.map (fun p => if p.1 == key then (key, [value]) else p)
  else vs ++ [(key, [value])]

/-- `url.Values.Add`: append `value` to the values of `key`. -/
def valuesAdd (vs : List (String × List String)) (key value : String) :
    List (String × List String) :=
  if vs.any (fun p => p.1 == key) then
    vs.map (fun p => if p.1 == key then (p.1, p.2 ++ [value]) else p)
  else vs ++ [(key, [value])]

/-- `Select` sets the column expression to the comma join of the columns. -/
def QueryBuilder.Select (q : QueryBuilder) (columns : List String) :
    QueryBuilder :=
  { q with selectQuery := String.intercalate "," columns }

/-- `Where` appends `fmt.Sprintf("%s.%s.%v", column, operator, value)`. -/
def QueryBuilder.Where (q : QueryBuilder) (column operator : String)
    (value : GoValue) : QueryBuilder :=
  { q with filters :=
      q.filters ++ [column ++ "." ++ operator ++ "." ++ value.format] }

/-- `OrWhere` appends `or(column.operator.value)`. -/
def QueryBuilder.OrWhere (q : QueryBuilder) (column operator : String)
    (value : GoValue) : QueryBuilder :=
  { q with filters :=
      q.filters ++
        ["or(" ++ column ++ "." ++ operator ++ "." ++ value.format ++ ")"] }

/-- `WhereRaw` appends `and(condition)`. -/
def QueryBuilder.WhereRaw (q : QueryBuilder) (condition : String) :
    QueryBuilder :=
  { q with filters := q.filters ++ ["and(" ++ condition ++ ")"] }

/-- `Order` overwrites the order expression with `order=column.direction`. -/
def QueryBuilder.Order (q : QueryBuilder) (column direction : String) :
    QueryBuilder :=
  { q with orderQuery := "order=" ++ column ++ "." ++ direction }

/-- `Limit` overwrites the limit expression with `limit=<n>`. -/
def QueryBuilder.Limit (q : QueryBuilder) (limit : Int) : QueryBuilder :=
  { q with limitQuery := "limit=" ++ toString limit }

/-- `Offset` overwrites the offset expression with `offset=<n>`. -/
def QueryBuilder.Offset (q : QueryBuilder) (offset : Int) : QueryBuilder :=
  { q with offsetQuery := "offset=" ++ toString offset }

/-- `Range` overwrites the range expression with `range=<start>-<end>`
(the Go parameters are named `start` and `end`). -/
def QueryBuilder.Range (q : QueryBuilder) (start stop : Int) : QueryBuilder :=
  { q with rangeQuery := "range=" ++ toString start ++ "-" ++ toString stop }

/-- `Header` performs `q.headers[key] = value`. On a builder from
`NewQueryBuilder` or `From` the map is nil, and a write to a nil map is a Go
runtime panic, modelled as the error value here. -/
def QueryBuilder.Header (q : QueryBuilder) (key value : String) :
    Except String QueryBuilder :=
  match q.headers with
  | none => Except.error "assignment to entry in nil map"
  | some m => Except.ok { q with headers := some (setAssoc m key value) }

/-- `Join` appends a join descriptor. -/
def QueryBuilder.Join (q : QueryBuilder)
    (foreignTable localColumn operator foreignColumn : String) :
    QueryBuilder :=
  { q with joins :=
      q.joins ++ [{ foreignTable := foreignTable, localColumn := localColumn,
                    operator := operator, foreignColumn := foreignColumn }] }

/-- `InnerJoin` is `Join` with operator `eq`. -/
def QueryBuilder.InnerJoin (q : QueryBuilder)
    (foreignTable localColumn foreignColumn : String) : QueryBuilder :=
  q.Join foreignTable localColumn "eq" foreignColumn

/-- `LeftJoin` adds the join and then sets the `Prefer` header (so it hits
the nil-map panic on builders whose header map was never initialised). -/
def QueryBuilder.LeftJoin (q : QueryBuilder)
    (foreignTable localColumn foreignColumn : String) :
    Except String QueryBuilder :=
  (q.Join foreignTable localColumn "eq" foreignColumn).Header
    "Prefer" "missing=null"

/-- `Raw` sets the raw SQL override. -/
def QueryBuilder.Raw (q : QueryBuilder) (query : String) : QueryBuilder :=
  { q with rawQuery := query }

/-- `Count` sets the count expression to `count=exact` unconditionally. -/
def QueryBuilder.Count (q : QueryBuilder) : QueryBuilder :=
  { q with countQuery := "count=exact" }

/-- `Single` sets the single-result flag. -/
def QueryBuilder.Single (q : QueryBuilder) : QueryBuilder :=
  { q with singleResult := true }

/-- `Filter` is an alias for `Where`. -/
def QueryBuilder.Filter (q : QueryBuilder) (column operator : String)
    (value : GoValue) : QueryBuilder :=
  q.Where column operator value

/-- `Or`: with a non-empty argument list, append one grouped filter string to
`orFilters`; with an empty list, return the builder unchanged. -/
def QueryBuilder.Or (q : QueryBuilder) (filters : List String) :
    QueryBuilder :=
  if filters.length > 0 then
    { q with orFilters :=
        q.orFilters ++ ["or=(" ++ String.intercalate "," filters ++ ")"] }
  else q

/-- `And`: symmetric to `Or`, targeting `andFilters`. -/
def QueryBuilder.And (q : QueryBuilder) (filters : List String) :
    QueryBuilder :=
  if filters.length > 0 then
    { q with andFilters :=
        q.andFilters ++ ["and=(" ++ String.intercalate "," filters ++ ")"] }
  else q

/-- `Not` appends `not.<column>=<operator>.<value>` to `notFilters`. -/
def QueryBuilder.Not (q : QueryBuilder) (column operator : String)
    (value : GoValue) : QueryBuilder :=
  { q with notFilters :=
      q.notFilters ++
        ["not." ++ column ++ "=" ++ operator ++ "." ++ value.format] }

/-- `ForeignTable` returns a fresh builder on the dotted table name. -/
def QueryBuilder.ForeignTable (q : QueryBuilder) (foreignTable : String) :
    QueryBuilder :=
  NewQueryBuilder (q.table ++ "." ++ foreignTable)

/-- Modelled from the spec: `Client.GetBaseURL` is absent from the given
sources; the spec says the client holds a base URL (stored verbatim by the
constructor), so the accessor returns it. Called on a nil client it would
dereference nil, which `QueryBuilder.prepare` models as a panic. -/
def Client.GetBaseURL (c : Client) : String := c.baseURL

/-- Modelled from the spec: `Client.RawRequest` is absent from the given
sources; the spec says the client owns the HTTP request factory and defers
authentication to the external HTTP collaborator, so the minted request is
modelled as empty. -/
def Client.RawRequest (c : Client) : Request :=
  { method := "", endpoint := "", headers := [], params := [], body := .empty }

/-- The request-assembly phase of `execute` (everything before the dispatch
switch). Returns `none` for the nil-pointer panic raised when the endpoint
computation calls `GetBaseURL` on a nil client. Otherwise mirrors the Go
body: endpoint/method/data from the raw-query branch, custom headers set on
the minted request, and — only when no raw query is set — the query-parameter
block and the `Range` header. The body is attached exactly when the dispatch
switch would call `SetBody` (POST and PATCH arms). -/
def QueryBuilder.prepare (q : QueryBuilder) (dataPresent : Bool) :
    Option Request :=
  match q.client with
  | none => none
  | some c =>
    let endpoint :=
      if q.rawQuery ≠ "" then c.GetBaseURL ++ "/rest/v1/rpc/execute_sql"
      else c.GetBaseURL ++ "/rest/v1/" ++ q.table
    let method := if q.rawQuery ≠ "" then "POST" else q.method
    let dataVal : BodyVal :=
      if q.rawQuery ≠ "" then BodyVal.sql q.rawQuery
      else if dataPresent then BodyVal.caller else BodyVal.empty
    let hs := (q.headers.getD []).foldl
      (fun m kv => setAssoc m kv.1 kv.2) (c.RawRequest).headers
    let body :=
      if method = "POST" ∨ method = "PATCH" then dataVal else BodyVal.empty
    if q.rawQuery ≠ "" then
      some { method := method, endpoint := endpoint, headers := hs,
             params := [], body := body }
    else
      let ps : List (String × List String) := []
      let ps := if q.selectQuery ≠ "" then valuesSet ps "select" q.selectQuery
                else ps
      let ps :=
        if q.joins ≠ [] then
          let joinSelects := q.joins.map (fun j => j.foreignTable ++ "(*)")
          if q.selectQuery ≠ "" then
            valuesSet ps "select"
              (q.selectQuery ++ "," ++ String.intercalate "," joinSelects)
          else
            valuesSet ps "select" ("*," ++ String.intercalate "," joinSelects)
        else ps
      let ps := q.filters.foldl (fun v f => valuesAdd v "and" f) ps
      let ps := if q.orderQuery ≠ "" then valuesSet ps "order" q.orderQuery
                else ps
      let ps := if q.limitQuery ≠ "" then valuesSet ps "limit" q.limitQuery
                else ps
      let ps := if q.offsetQuery ≠ "" then valuesSet ps "offset" q.offsetQuery
                else ps
      let hs := if q.rangeQuery ≠ "" then setAssoc hs "Range" q.rangeQuery
                else hs
      some { method := method, endpoint := endpoint, headers := hs,
             params := ps, body := body }

/-- The observable outcome of a terminal operation. `panicked` is a Go
runtime panic before any dispatch; `errBeforeDispatch` is an error returned
without a network call; the remaining constructors record the dispatched
request, and `okDecoded` means `json.Unmarshal(resp.Body(), data)` is
performed on the given response body (its error, if any, is returned to the
caller); `okPlain` returns nil leaving the data untouched; `nilNoDispatch`
is a nil return with no request at all. -/
inductive ExecOutcome where
  | panicked (msg : String)
  | errBeforeDispatch (msg : String)
  | transportErr (req : Request) (msg : String)
  | apiErr (req : Request) (respBody : String)
  | okDecoded (req : Request) (respBody : String)
  | okPlain (req : Request)
  | nilNoDispatch
deriving DecidableEq, Repr

/-- `execute`: assemble the request, dispatch through the method switch
(default arm: unsupported-method error, no dispatch), then handle the
response: non-success status becomes an API error carrying the raw body;
on success the body is decoded into the data value exactly when the
(possibly raw-branch-overwritten) method is GET or POST and the data value
is non-nil (in the raw branch the data was replaced by the `sqlRequest`
struct, hence is always non-nil). -/
def QueryBuilder.execute (q : QueryBuilder) (dataPresent : Bool)
    (transport : Request → Except String Response) : ExecOutcome :=
  match q.prepare dataPresent with
  | none =>
    ExecOutcome.panicked
      "runtime error: invalid memory address or nil pointer dereference"
  | some req =>
    if req.method = "GET" ∨ req.method = "POST" ∨ req.method = "PATCH" ∨
        req.method = "DELETE" then
      match transport req with
      | Except.error e => ExecOutcome.transportErr req e
      | Except.ok resp =>
        if resp.isErr then
          ExecOutcome.apiErr req ("API error: " ++ resp.body)
        else
          let dataNonNil := if q.rawQuery ≠ "" then true else dataPresent
          if (req.method = "GET" ∨ req.method = "POST") ∧ dataNonNil = true
          then ExecOutcome.okDecoded req resp.body
          else ExecOutcome.okPlain req
    else
      ExecOutcome.errBeforeDispatch ("unsupported HTTP method: " ++ req.method)

/-- `Get` calls `execute` directly; note it never assigns `q.method`. -/
def QueryBuilder.Get (q : QueryBuilder) (dataPresent : Bool)
    (transport : Request → Except String Response) : ExecOutcome :=
  q.execute dataPresent transport

/-- `First` sets limit to 1 and calls `execute`. -/
def QueryBuilder.First (q : QueryBuilder) (dataPresent : Bool)
    (transport : Request → Except String Response) : ExecOutcome :=
  (q.Limit 1).execute dataPresent transport

/-- `Insert` sets the method to POST and calls `execute` with the data. -/
def QueryBuilder.Insert (q : QueryBuilder) (dataPresent : Bool)
    (transport : Request → Except String Response) : ExecOutcome :=
  ({ q with method := "POST" }).execute dataPresent transport

/-- `Update` sets the method to PATCH and calls `execute` with the data. -/
def QueryBuilder.Update (q : QueryBuilder) (dataPresent : Bool)
    (transport : Request → Except String Response) : ExecOutcome :=
  ({ q with method := "PATCH" }).execute dataPresent transport

/-- `Delete` sets the method to DELETE and calls `execute` with nil data. -/
def QueryBuilder.Delete (q : QueryBuilder)
    (transport : Request → Except String Response) : ExecOutcome :=
  ({ q with method := "DELETE" }).execute false transport

/-- `Execute` as written in `query_builder.go`: the body is the comment
`Implementation for tests` and `return nil` — no request is assembled or
dispatched and the destination is never written. -/
def QueryBuilder.Execute (q : QueryBuilder) (dataPresent : Bool)
    (transport : Request → Except String Response) : ExecOutcome :=
  ExecOutcome.nilNoDispatch

/-- `BuildURL`: `/` + table, then the parameter fragments accumulated by the
successive conditional appends, joined with `&` after a `?` when the list is
non-empty. -/
def QueryBuilder.BuildURL (q : QueryBuilder) : String :=
  let url := "/" ++ q.table
  let params : List String := []
  let params := if q.selectQuery ≠ "" then params ++ [q.selectQuery]
                else params
  let params := params ++ q.filters
  let params := if q.orderQuery ≠ "" then params ++ [q.orderQuery] else params
  let params := if q.limitQuery ≠ "" then params ++ [q.limitQuery] else params
  let params := if q.offsetQuery ≠ "" then params ++ [q.offsetQuery]
                else params
  let params := if q.countQuery ≠ "" then params ++ [q.countQuery] else params
  if params.length > 0 then url ++ "?" ++ String.intercalate "&" params
  else url

/-- Spec-side description of the `BuildURL` fragments: the non-empty entries
of the fixed-order list select, plain filters, order, limit, offset, count. -/
def specFragments (q : QueryBuilder) : List String :=
  (([q.selectQuery] ++ q.filters) ++
    [q.orderQuery, q.limitQuery, q.offsetQuery, q.countQuery]).filter
    (fun s => s ≠ "")

/-- A concrete client for the evaluation theorems. -/
def demoClient : Client := NewClient "http://localhost" "api-key"

/-- A transport that always fails; used where the theorem asserts that no
request is ever handed to the transport, so its behaviour is irrelevant. -/
def noNetwork : Request → Except String Response :=
  fun _ => Except.error "dial tcp: connection refused"

/-- C1: the claim says `Get(dest)` on a builder with no raw-query override
dispatches a GET and decodes the response. Evaluating the code at the failing
input — a fresh builder for table `users` with a client attached so the
endpoint computation succeeds — `Get` returns the unsupported-method error:
no code path ever assigns the GET method to `q.method`, so the dispatch
switch falls into its default arm and no request reaches the transport. -/
theorem Get_without_raw_hits_unsupported_method :
    QueryBuilder.Get { NewQueryBuilder "users" with client := some demoClient }
      true noNetwork
    = ExecOutcome.errBeforeDispatch "unsupported HTTP method: " := by rfl

/-- C2: the claim says `Client.RPC` POSTs the parameter map and decodes the
response into the result. Evaluating the code at the failing input of the
end-to-end scenario: the call performs no round trip, never writes the
result destination, and returns nil. -/
theorem RPC_stub_no_request_no_decode :
    Client.RPC demoClient "get_user_by_id" [("user_id", GoValue.int 1)]
      = { requests := [], resultWritten := false, ret := none } := by rfl

/-- C3: the claim says `Execute(dest)` behaves identically to `Get(dest)`.
At the failing input — the configured builder of the repository's own
`TestExecute` scenario, with a client attached — `Execute` returns nil
having dispatched nothing and written nothing, while `Get` on the same
builder returns the unsupported-method error; the two outcomes differ. -/
theorem Execute_and_Get_disagree :
    QueryBuilder.Execute
        ((({ NewQueryBuilder "users" with client := some demoClient
           }).Select ["id", "name"]).Filter "age" "gt" (GoValue.int 18))
        true noNetwork
      = ExecOutcome.nilNoDispatch
    ∧ QueryBuilder.Get
        ((({ NewQueryBuilder "users" with client := some demoClient
           }).Select ["id", "name"]).Filter "age" "gt" (GoValue.int 18))
        true noNetwork
      = ExecOutcome.errBeforeDispatch "unsupported HTTP method: "
    ∧ ExecOutcome.nilNoDispatch
        ≠ ExecOutcome.errBeforeDispatch "unsupported HTTP method: " :=
  ⟨rfl, by rfl, by decide⟩

/-- C4: the claim says `Header(key, value)` on a builder from
`NewQueryBuilder` or `From` completes without failure and the panic branch is
unreachable. Evaluating the code at the failing input: both constructors
leave the header map nil, and the map write in `Header` is a nil-map
assignment, a Go runtime panic. -/
theorem Header_on_fresh_builder_panics :
    (NewQueryBuilder "users").Header "X-Custom" "1"
      = Except.error "assignment to entry in nil map"
    ∧ (demoClient.From "users").headers = none := ⟨rfl, rfl⟩

/-- C5: the claim says `From(table)` returns a builder whose owning-client
reference is bound to the receiver. Evaluating the code at the failing
input: the table field is bound, but `From` returns `NewQueryBuilder(table)`
without assigning the client field, which therefore stays nil. -/
theorem From_binds_table_but_not_client :
    (demoClient.From "users").table = "users"
    ∧ (demoClient.From "users").client = none := ⟨rfl, rfl⟩

/-- C6: the claim says an array-valued `Where` renders the value as a
parenthesized comma-joined list `<column>.<operator>.(v1,...,vn)`.
Evaluating the code at the failing input `Where("id", "in", []int\x7b1,2,3\x7d)`:
the `%v` verb renders the slice as `[1 2 3]`, so the appended filter is
`id.in.[1 2 3]`, not `id.in.(1,2,3)`. -/
theorem Where_slice_value_rendering :
    ((NewQueryBuilder "users").Where "id" "in"
        (GoValue.intSlice [1, 2, 3])).filters
      = ["id.in.[1 2 3]"]
    ∧ ("id.in.[1 2 3]" : String) ≠ "id.in.(1,2,3)" := ⟨rfl, by decide⟩

/-- C9: the claim says the serialization step emits query parameter `limit`
with value the decimal rendering of n (symmetrically for offset and order).
Evaluating the code at the failing input — a builder with
`Order("created_at","desc")`, `Limit(10)`, `Offset(20)` — the emitted values
are the stored fragments `order=created_at.desc`, `limit=10`, `offset=20`,
each carrying the key prefix a second time, instead of the bare values. -/
theorem limit_offset_order_param_values :
    ((((({ NewQueryBuilder "users" with client := some demoClient
        }).Order "created_at" "desc").Limit 10).Offset 20)).prepare true
      = some { method := "", endpoint := "http://localhost/rest/v1/users",
               headers := [],
               params := [("order", ["order=created_at.desc"]),
                          ("limit", ["limit=10"]),
                          ("offset", ["offset=20"])],
               body := BodyVal.empty }
    ∧ ("limit=10" : String) ≠ "10" := ⟨by rfl, by decide⟩

/-- C7: with a raw-query override set, the terminal serialization targets
`baseURL/rest/v1/rpc/execute_sql`, forces the method to POST, attaches the
body whose JSON encoding is the object with single field `query` holding the
raw text, and emits no query parameters whatsoever from the accumulated
select, filter, order, limit, offset, or join state. -/
theorem raw_override_request_shape (q : QueryBuilder) (c : Client)
    (dataPresent : Bool) (hc : q.client = some c) (hr : q.rawQuery ≠ "") :
    ∃ hs, q.prepare dataPresent
      = some { method := "POST",
               endpoint := c.baseURL ++ "/rest/v1/rpc/execute_sql",
               headers := hs, params := [],
               body := BodyVal.sql q.rawQuery } := by
  refine ⟨(q.headers.getD []).foldl
    (fun m kv => setAssoc m kv.1 kv.2) (c.RawRequest).headers, ?_⟩
  unfold QueryBuilder.prepare
  rw [hc]
  simp [hr, Client.GetBaseURL]

/-- A builder carrying a raw-query override together with would-be query
state, used to instantiate the raw-mode theorem on a concrete input. -/
def rawDemo : QueryBuilder :=
  { NewQueryBuilder "users" with
    client := some demoClient
    rawQuery := "SELECT 1"
    filters := ["age.gt.18"]
    limitQuery := "limit=5"
    selectQuery := "id,name" }

/-- Instantiation of the raw-query-mode theorem at a concrete builder. -/
theorem raw_override_request_shape_witness :
    ∃ hs, rawDemo.prepare true
      = some { method := "POST",
               endpoint := demoClient.baseURL ++ "/rest/v1/rpc/execute_sql",
               headers := hs, params := [],
               body := BodyVal.sql rawDemo.rawQuery } :=
  raw_override_request_shape rawDemo demoClient true rfl (by decide)

/-- C10: `Or` and `And` with an empty filter list leave the builder entirely
unchanged; with a non-empty list f1..fn each appends exactly the one string
`or=(f1,...,fn)` respectively `and=(f1,...,fn)` to its grouped-filter
collection, leaving every other field of the builder unchanged. -/
theorem Or_And_empty_noop_nonempty_appends (q : QueryBuilder)
    (fs : List String) (hfs : fs ≠ []) :
    q.Or [] = q ∧ q.And [] = q ∧
    q.Or fs = { q with orFilters :=
        q.orFilters ++ ["or=(" ++ String.intercalate "," fs ++ ")"] } ∧
    q.And fs = { q with andFilters :=
        q.andFilters ++ ["and=(" ++ String.intercalate "," fs ++ ")"] } := by
  have h : 0 < fs.length := List.length_pos.mpr hfs
  refine ⟨rfl, rfl, ?_, ?_⟩
  · unfold QueryBuilder.Or
    rw [if_pos h]
  · unfold QueryBuilder.And
    rw [if_pos h]

/-- Instantiation of the `Or`/`And` frame theorem at a concrete builder and
filter list. -/
theorem Or_And_empty_noop_nonempty_appends_witness :
    (NewQueryBuilder "users").Or ["age=gte.18", "name=eq.John"]
      = { NewQueryBuilder "users" with orFilters :=
            (NewQueryBuilder "users").orFilters ++
              ["or=(" ++
                String.intercalate "," ["age=gte.18", "name=eq.John"] ++
                ")"] } :=
  (Or_And_empty_noop_nonempty_appends (NewQueryBuilder "users")
    ["age=gte.18", "name=eq.John"] (by decide)).2.2.1

/-- C8: for every accumulated state whose plain filters are non-empty
strings (which is every state reachable through `Where`, `OrWhere`,
`WhereRaw`, `Filter`), `BuildURL` returns `/` + table, followed — only when
at least one fragment is non-empty — by `?` and the `&`-joined non-empty
fragments in the fixed order select, plain filters in insertion order,
order, limit, offset, count; empty fragments are omitted, and with no
fragments the result is `/` + table with no `?`. -/
theorem BuildURL_fragment_composition (q : QueryBuilder)
    (hf : ∀ f ∈ q.filters, f ≠ "") :
    q.BuildURL = "/" ++ q.table ++
      (if specFragments q = [] then ""
       else "?" ++ String.intercalate "&" (specFragments q)) := by
  have hfs : List.filter (fun s => !decide (s = "")) q.filters = q.filters := by
    rw [List.filter_eq_self]
    intro a ha
    simpa using hf a ha
  have hfs2 : List.filter (fun s => decide (s ≠ "")) q.filters = q.filters := by
    simpa using hfs
  rcases eq_or_ne q.filters [] with hfe | hfe
  · unfold QueryBuilder.BuildURL specFragments
    rcases eq_or_ne q.selectQuery "" with hs | hs <;>
      rcases eq_or_ne q.orderQuery "" with ho | ho <;>
        rcases eq_or_ne q.limitQuery "" with hl | hl <;>
          rcases eq_or_ne q.offsetQuery "" with hoff | hoff <;>
            rcases eq_or_ne q.countQuery "" with hc | hc <;>
              simp [hs, ho, hl, hoff, hc, hfe, List.filter_append,
                List.length_pos, String.append_assoc]
  · have hne : ¬ ∀ a ∈ q.filters, a = "" := by
      intro hall
      rcases List.exists_mem_of_ne_nil q.filters hfe with ⟨x, hx⟩
      exact hf x hx (hall x hx)
    unfold QueryBuilder.BuildURL specFragments
    rcases eq_or_ne q.selectQuery "" with hs | hs <;>
      rcases eq_or_ne q.orderQuery "" with ho | ho <;>
        rcases eq_or_ne q.limitQuery "" with hl | hl <;>
          rcases eq_or_ne q.offsetQuery "" with hoff | hoff <;>
            rcases eq_or_ne q.countQuery "" with hc | hc <;>
              simp [hs, ho, hl, hoff, hc, hfe, hfs, hfs2, hne,
                List.filter_append, List.length_pos, String.append_assoc]

/-- A fully configured builder used to instantiate the `BuildURL`
characterization on a concrete input. -/
def demoBuilt : QueryBuilder :=
  ((((NewQueryBuilder "users").Select ["id", "name"]).Where "age" "gt"
      (GoValue.int 18)).Limit 10)

/-- Instantiation of the `BuildURL` characterization at a concrete
builder. -/
theorem BuildURL_fragment_composition_witness :
    demoBuilt.BuildURL = "/" ++ demoBuilt.table ++
      (if specFragments demoBuilt = [] then ""
       else "?" ++ String.intercalate "&" (specFragments demoBuilt)) :=
  BuildURL_fragment_composition demoBuilt (by decide)

end SupabaseOrm
